import Mathlib

/-!
Verification development for the TikTok stream-key generator repository.

The embedding models, in order:
* the JSON value model and a parser mirroring the behaviour of
  JavaScript's JSON.parse as used through safeJsonParse
  (src/unnamed/part_012, second section: json.ts);
* the IPC message router IpcMessageRouter (src/src/utils/ipc-handler.ts)
  with its default options, as a function from a raw input string and a
  handler map to the trace of observable effects;
* the navigation/auth state machine StreamlabsAuth
  (src/unnamed/part_012, third section, and src/src/auth/electron-login.ts):
  checkSuccess, the single-fire tokenFetchStarted guard, the closed-window
  handler and handleFetchResult, as a step function over an explicit state;
* the PKCE pair generator of AuthManager (src/src/auth/AuthManager.ts):
  generateCodeVerifier and generateCodeChallenge, over an explicit list of
  random bytes, together with an executable SHA-256 and base64;
* the token cache writer TokenStorage.save / FileUtils.writeJson
  (src/src/utils/fileUtils.ts), with the file system abstracted as the
  JSON value currently stored in the file.
-/

/-! ## JSON value model -/

/-- A JSON value as produced by JSON.parse.  Numbers keep their source
lexeme: no claim depends on numeric values beyond zero/non-zero. -/
inductive Json where
  | null : Json
  | bool (b : Bool) : Json
  | num (lexeme : String) : Json
  | str (s : String) : Json
  | arr (elems : List Json) : Json
  | obj (fields : List (String × Json)) : Json
deriving Repr

/-- Field list of a JavaScript object; keys are unique (later assignments
to an existing key update in place, as in a JS object build). -/
abbrev JsObj := List (String × Json)

/-- Property read on an object: first (unique) matching key. -/
def objGet : JsObj → String → Option Json
  | [], _ => none
  | (k', v') :: rest, k => if k' = k then some v' else objGet rest k

/-- The JS `in` test: is the key present at all. -/
def hasField (l : JsObj) (k : String) : Bool :=
  (objGet l k).isSome

/-- Property assignment: update in place if present, append otherwise. -/
def setField : JsObj → String → Json → JsObj
  | [], k, v => [(k, v)]
  | (k', v') :: rest, k, v =>
    if k' = k then (k', v) :: rest else (k', v') :: setField rest k v

/-- Does a number lexeme denote a non-zero value (a JSON number is falsy
exactly when its mantissa digits are all zero). -/
def numTruthy (lexeme : String) : Bool :=
  lexeme.data.any (fun c => '1' ≤ c && c ≤ '9')

/-- JavaScript truthiness of a property read result (missing ⇒ undefined
⇒ falsy). -/
def truthy : Option Json → Bool
  | none => false
  | some Json.null => false
  | some (Json.bool b) => b
  | some (Json.num lexeme) => numTruthy lexeme
  | some (Json.str s) => s ≠ ""
  | some (Json.arr _) => true
  | some (Json.obj _) => true

/-! ## JSON.parse

A fuel-indexed recursive-descent parser for the JSON grammar accepted by
JSON.parse: the exact value grammar of RFC 8259, with the four JSON
whitespace characters.  safeJsonParse wraps JSON.parse in try/catch and
reports success or failure; jsonParse returns some / none accordingly. -/

/-- JSON whitespace (the only characters JSON.parse skips). -/
def isJsonWs (c : Char) : Bool :=
  c = ' ' || c = '\t' || c = '\n' || c = '\r'

/-- Drop leading JSON whitespace. -/
def skipWs (cs : List Char) : List Char :=
  cs.dropWhile isJsonWs

def isDigitCh (c : Char) : Bool :=
  '0' ≤ c && c ≤ '9'

def isHexCh (c : Char) : Bool :=
  isDigitCh c || ('a' ≤ c && c ≤ 'f') || ('A' ≤ c && c ≤ 'F')

def hexVal (c : Char) : Nat :=
  if isDigitCh c then c.toNat - 48
  else if 'a' ≤ c && c ≤ 'f' then c.toNat - 87
  else if 'A' ≤ c && c ≤ 'F' then c.toNat - 55
  else 0

/-- Digit run at the head of the input. -/
def spanDigits (cs : List Char) : List Char × List Char :=
  (cs.takeWhile isDigitCh, cs.dropWhile isDigitCh)

/-- The integer part of a JSON number: a single 0, or a non-zero digit
followed by digits (JSON.parse rejects leading zeros). -/
def parseIntPart : List Char → Option (List Char × List Char)
  | '0' :: rest => some (['0'], rest)
  | c :: rest =>
    if isDigitCh c then
      let (ds, r) := spanDigits rest
      some (c :: ds, r)
    else none
  | [] => none

/-- Optional fraction part `.digits` (at least one digit if present). -/
def parseFracPart : List Char → Option (List Char × List Char)
  | '.' :: rest =>
    let (ds, r) := spanDigits rest
    if ds.isEmpty then none else some ('.' :: ds, r)
  | cs => some ([], cs)

/-- Optional exponent part `(e|E)(+|-)?digits`. -/
def parseExpPart : List Char → Option (List Char × List Char)
  | c :: rest =>
    if c = 'e' || c = 'E' then
      match rest with
      | s :: rest2 =>
        if s = '+' || s = '-' then
          let (ds, r) := spanDigits rest2
          if ds.isEmpty then none else some (c :: s :: ds, r)
        else
          let (ds, r) := spanDigits rest
          if ds.isEmpty then none else some (c :: ds, r)
      | [] => none
    else some ([], c :: rest)
  | [] => some ([], [])

/-- A full JSON number token starting at the head of the input. -/
def parseNumber (cs : List Char) : Option (Json × List Char) := do
  let (sign, cs1) := match cs with
    | '-' :: rest => (['-'], rest)
    | _ => (([] : List Char), cs)
  let (ip, cs2) ← parseIntPart cs1
  let (fp, cs3) ← parseFracPart cs2
  let (ep, cs4) ← parseExpPart cs3
  pure (Json.num (String.mk (sign ++ ip ++ fp ++ ep)), cs4)

/-- Body of a JSON string literal after the opening quote, with the
escape sequences JSON.parse accepts. -/
def parseStringBody : Nat → List Char → Option (List Char × List Char)
  | 0, _ => none
  | _ + 1, [] => none
  | fuel + 1, c :: rest =>
    if c = '"' then some ([], rest)
    else if c = '\\' then
      match rest with
      | [] => none
      | e :: rest2 =>
        let esc : Option (Char × List Char) :=
          if e = '"' then some ('"', rest2)
          else if e = '\\' then some ('\\', rest2)
          else if e = '/' then some ('/', rest2)
          else if e = 'b' then some ('\x08', rest2)
          else if e = 'f' then some ('\x0c', rest2)
          else if e = 'n' then some ('\n', rest2)
          else if e = 'r' then some ('\r', rest2)
          else if e = 't' then some ('\t', rest2)
          else if e = 'u' then
            match rest2 with
            | h1 :: h2 :: h3 :: h4 :: rest3 =>
              if isHexCh h1 && isHexCh h2 && isHexCh h3 && isHexCh h4 then
                some (Char.ofNat
                  (hexVal h1 * 4096 + hexVal h2 * 256 + hexVal h3 * 16 + hexVal h4), rest3)
              else none
            | _ => none
          else none
        match esc with
        | some (decoded, rest') =>
          match parseStringBody fuel rest' with
          | some (tail, r) => some (decoded :: tail, r)
          | none => none
        | none => none
    else if c.toNat < 32 then none
    else
      match parseStringBody fuel rest with
      | some (tail, r) => some (c :: tail, r)
      | none => none

mutual

/-- One JSON value starting at the head of the input (leading whitespace
allowed), returning the value and the unconsumed remainder. -/
def parseVal : Nat → List Char → Option (Json × List Char)
  | 0, _ => none
  | fuel + 1, cs =>
    match skipWs cs with
    | 'n' :: 'u' :: 'l' :: 'l' :: r => some (Json.null, r)
    | 't' :: 'r' :: 'u' :: 'e' :: r => some (Json.bool true, r)
    | 'f' :: 'a' :: 'l' :: 's' :: 'e' :: r => some (Json.bool false, r)
    | '"' :: r =>
      match parseStringBody (r.length + 1) r with
      | some (body, rest) => some (Json.str (String.mk body), rest)
      | none => none
    | '[' :: r => parseArrElems fuel (skipWs r) true []
    | '{' :: r => parseObjFields fuel (skipWs r) true []
    | other => parseNumber other

/-- Elements of an array after the opening bracket; `first` is true until
an element has been read. -/
def parseArrElems : Nat → List Char → Bool → List Json →
    Option (Json × List Char)
  | 0, _, _, _ => none
  | fuel + 1, cs, first, acc =>
    match cs with
    | ']' :: r => if first then some (Json.arr acc.reverse, r) else none
    | _ =>
      match parseVal fuel cs with
      | some (v, rest) =>
        match skipWs rest with
        | ',' :: r2 => parseArrElems fuel (skipWs r2) false (v :: acc)
        | ']' :: r2 => some (Json.arr (v :: acc).reverse, r2)
        | _ => none
      | none => none

/-- Members of an object after the opening brace; duplicate keys update
in place so the last value wins, as in a JS object build. -/
def parseObjFields : Nat → List Char → Bool → JsObj →
    Option (Json × List Char)
  | 0, _, _, _ => none
  | fuel + 1, cs, first, acc =>
    match cs with
    | '}' :: r => if first then some (Json.obj acc, r) else none
    | '"' :: r =>
      match parseStringBody (r.length + 1) r with
      | some (keyChars, rest) =>
        match skipWs rest with
        | ':' :: r2 =>
          match parseVal fuel r2 with
          | some (v, rest2) =>
            let acc' := setField acc (String.mk keyChars) v
            match skipWs rest2 with
            | ',' :: r3 =>
              match skipWs r3 with
              | '"' :: r4 => parseObjFields fuel ('"' :: r4) false acc'
              | _ => none
            | '}' :: r3 => some (Json.obj acc', r3)
            | _ => none
          | none => none
        | _ => none
      | none => none
    | _ => none

end

/-- Model of JSON.parse: parse one value, then require only trailing
whitespace.  safeJsonParse returns success exactly when this is some. -/
def jsonParse (s : String) : Option Json :=
  match parseVal (2 * s.length + 4) s.data with
  | some (v, rest) => if (skipWs rest).isEmpty then some v else none
  | none => none

/-! ## IPC message router

Model of IpcMessageRouter (src/src/utils/ipc-handler.ts) constructed with
its default options (enableLogging false, autoGenerateId true,
autoTimestamp true, onUnhandledMessage no-op, onParseError console.error).
Handlers may throw; a throw is an `Except.error`.  The router is a
function to the trace of observable effects; it returns `Except.error`
only where the source would let an exception escape to its caller. -/

/-- The four members of the IpcMessageType enum (src/unnamed/part_012). -/
inductive MsgType where
  | WINDOW_CONTEXT
  | USER_ACTION
  | LOG_EVENT
  | RAW_STRING
deriving DecidableEq, Repr

/-- The string value of each enum member. -/
def msgTypeStr : MsgType → String
  | .WINDOW_CONTEXT => "WINDOW_CONTEXT"
  | .USER_ACTION => "USER_ACTION"
  | .LOG_EVENT => "LOG_EVENT"
  | .RAW_STRING => "RAW_STRING"

/-- Membership in Object.values(IpcMessageType), returning the member. -/
def toMsgType (s : String) : Option MsgType :=
  if s = "WINDOW_CONTEXT" then some .WINDOW_CONTEXT
  else if s = "USER_ACTION" then some .USER_ACTION
  else if s = "LOG_EVENT" then some .LOG_EVENT
  else if s = "RAW_STRING" then some .RAW_STRING
  else none

/-- A registered handler: receives the payload and the whole message and
either returns or throws. -/
def Handler := Json → JsObj → Except String Unit

/-- The router's handler table: at most one handler per message type. -/
def HandlerMap := MsgType → Option Handler

/-- Observable effects of one dispatch. -/
inductive Event where
  | handlerCalled (t : MsgType) (payload : Json) (msg : JsObj)
  | handlerErrorLogged (t : MsgType) (e : String)
  | unhandledMessage (msg : JsObj)
  | parseErrorReported (e : String)
deriving Repr

/-- Ambient data the source reads from the clock and RNG:
`Date.now()` and `generateId()` results. -/
structure RouterCtx where
  now : Nat
  genId : String

/-- Decimal key string used by a JS spread of an array or string
(index properties "0", "1", ...). -/
def digitCh (n : Nat) : Char :=
  if n % 10 = 0 then '0' else if n % 10 = 1 then '1'
  else if n % 10 = 2 then '2' else if n % 10 = 3 then '3'
  else if n % 10 = 4 then '4' else if n % 10 = 5 then '5'
  else if n % 10 = 6 then '6' else if n % 10 = 7 then '7'
  else if n % 10 = 8 then '8' else '9'

def natDigits : Nat → Nat → List Char
  | 0, _ => []
  | fuel + 1, n =>
    if n < 10 then [digitCh n]
    else natDigits fuel (n / 10) ++ [digitCh (n % 10)]

def natKey (n : Nat) : String :=
  String.mk (natDigits (n + 1) n)

/-- Index fields contributed by spreading an array. -/
def enumFields : Nat → List Json → JsObj
  | _, [] => []
  | i, x :: xs => (natKey i, x) :: enumFields (i + 1) xs

/-- Index fields contributed by spreading a string (one single-character
string property per character). -/
def strFields : Nat → List Char → JsObj
  | _, [] => []
  | i, c :: cs => (natKey i, Json.str (String.mk [c])) :: strFields (i + 1) cs

/-- The object produced by the JS spread `{ ...message }` of a parsed
JSON value: objects keep their fields, arrays and strings contribute
index properties, every other primitive contributes nothing. -/
def jsSpread : Json → JsObj
  | Json.obj f => f
  | Json.arr xs => enumFields 0 xs
  | Json.str s => strFields 0 s.data
  | _ => []

/-- First enrichment step: fill `timestamp` when falsy (autoTimestamp is
true by default). -/
def enrichTimestamp (ctx : RouterCtx) (e : JsObj) : JsObj :=
  if truthy (objGet e "timestamp") then e
  else setField e "timestamp" (Json.num (toString ctx.now))

/-- Second enrichment step: fill `id` when falsy (autoGenerateId is true
by default). -/
def enrichId (ctx : RouterCtx) (e : JsObj) : JsObj :=
  if truthy (objGet e "id") then e
  else setField e "id" (Json.str ctx.genId)

/-- IpcMessageRouter.enrichMessage with the default options: spread the
parsed value, then fill `timestamp` and `id` when falsy, in that
order. -/
def enrichMessage (ctx : RouterCtx) (v : Json) : JsObj :=
  enrichId ctx (enrichTimestamp ctx (jsSpread v))

/-- IpcMessageRouter.isValidIpcMessage on an object: `type` must be a
truthy string that is a member of the enum, and a `payload` key must
exist.  (The typeof-object test always passes at both call sites, which
pass objects.) -/
def isValidIpcMessage (m : JsObj) : Bool :=
  match objGet m "type" with
  | some (Json.str s) => s ≠ "" && (toMsgType s).isSome && hasField m "payload"
  | _ => false

/-- The message's `type` property as an enum member. -/
def typeOfMsg (m : JsObj) : Option MsgType :=
  match objGet m "type" with
  | some (Json.str s) => toMsgType s
  | _ => none

/-- The message's `payload` property (present whenever valid). -/
def payloadOf (m : JsObj) : Json :=
  (objGet m "payload").getD Json.null

/-- IpcMessageRouter.processMessage: validate, look up a handler for the
type, call it inside try/catch; report via onParseError or
onUnhandledMessage otherwise.  Returns the effect trace; never throws. -/
def processMessage (handlers : HandlerMap) (m : JsObj) :
    Except String (List Event) :=
  if isValidIpcMessage m then
    match typeOfMsg m with
    | some t =>
      match handlers t with
      | none => .ok [.unhandledMessage m]
      | some h =>
        match h (payloadOf m) m with
        | .ok _ => .ok [.handlerCalled t (payloadOf m) m]
        | .error e => .ok [.handlerCalled t (payloadOf m) m,
                           .handlerErrorLogged t e]
    | none => .ok [.parseErrorReported "Invalid IPC message structure"]
  else .ok [.parseErrorReported "Invalid IPC message structure"]

/-- The payload IpcMessageRouter.handleRawString builds around a
non-JSON input. -/
def rawStringPayload (ctx : RouterCtx) (data : String) : Json :=
  Json.obj [("data", Json.str data), ("receivedAt", Json.num (toString ctx.now))]

/-- The RAW_STRING message IpcMessageRouter.handleRawString builds. -/
def rawStringMessage (ctx : RouterCtx) (data : String) : JsObj :=
  [("type", Json.str "RAW_STRING"),
   ("payload", rawStringPayload ctx data),
   ("timestamp", Json.num (toString ctx.now)),
   ("id", Json.str ctx.genId)]

/-- IpcMessageRouter.handleRawString. -/
def handleRawString (ctx : RouterCtx) (handlers : HandlerMap)
    (data : String) : Except String (List Event) :=
  processMessage handlers (rawStringMessage ctx data)

/-- IpcMessageRouter.handle on a string input: try safeJsonParse; on
success enrich and process, on failure take the raw-string path. -/
def handle (ctx : RouterCtx) (handlers : HandlerMap) (raw : String) :
    Except String (List Event) :=
  match jsonParse raw with
  | some v => processMessage handlers (enrichMessage ctx v)
  | none => handleRawString ctx handlers raw

/-- Deliveries to registered handlers recorded in a dispatch result. -/
def handlerCalls (r : Except String (List Event)) : List Event :=
  match r with
  | .ok tr => tr.filter (fun e => match e with
      | .handlerCalled _ _ _ => true
      | _ => false)
  | .error _ => []

/-- How many times onUnhandledMessage was invoked. -/
def unhandledCount (r : Except String (List Event)) : Nat :=
  match r with
  | .ok tr => (tr.filter (fun e => match e with
      | .unhandledMessage _ => true
      | _ => false)).length
  | .error _ => 0

/-- How many times onParseError was invoked. -/
def parseErrorCount (r : Except String (List Event)) : Nat :=
  match r with
  | .ok tr => (tr.filter (fun e => match e with
      | .parseErrorReported _ => true
      | _ => false)).length
  | .error _ => 0

/-! ## Navigation state machine

Model of the StreamlabsAuth class (src/unnamed/part_012, third section;
src/src/auth/electron-login.ts has the same checkSuccess logic with the
marker strings written inline).  The browser session and its page loads
are external: the machine is a step function over the instance state,
driven by the events the source subscribes to.  findToken resolves or
rejects exactly once; the promise is modelled by an Option that keeps
its first settlement. -/

/-- JS String.prototype.startsWith on character lists. -/
def startsWithL : List Char → List Char → Bool
  | _, [] => true
  | [], _ :: _ => false
  | c :: cs, p :: ps => c = p && startsWithL cs ps

/-- JS String.prototype.includes: does p occur as a contiguous
substring. -/
def hasSubstrL : List Char → List Char → Bool
  | [], p => p.isEmpty
  | c :: cs, p => startsWithL (c :: cs) p || hasSubstrL cs p

/-- url.includes(marker). -/
def urlIncludes (url marker : String) : Bool :=
  hasSubstrL url.data marker.data

/-- The query portion of a URL: after the first '?', cut at the first
'#'. -/
def queryOf (url : String) : List Char :=
  ((url.data.dropWhile (fun c => c ≠ '?')).drop 1).takeWhile (fun c => c ≠ '#')

/-- One `key=value` pair of a query string (value empty when '=' is
absent). -/
def splitPair (p : List Char) : String × String :=
  (String.mk (p.takeWhile (fun c => c ≠ '=')),
   String.mk ((p.dropWhile (fun c => c ≠ '=')).drop 1))

/-- Split a query string on '&'. -/
def splitAmp : Nat → List Char → List (List Char)
  | 0, _ => []
  | _ + 1, [] => []
  | fuel + 1, cs =>
    let head := cs.takeWhile (fun c => c ≠ '&')
    let rest := (cs.dropWhile (fun c => c ≠ '&')).drop 1
    head :: splitAmp fuel rest

/-- new URL(url).searchParams.get(key): first matching pair, or none.
(Abstraction of the WHATWG parser; percent-decoding is not modelled, the
URLs the machine inspects use unescaped keys and values.) -/
def searchParamGet (url key : String) : Option String :=
  ((splitAmp (url.length + 1) (queryOf url)).map splitPair).lookup key

/-- Model of the `new URL(url)` constructor throwing: the URLs the
machine sees are absolute, so validity is having a scheme separator. -/
def urlParseOk (url : String) : Bool :=
  urlIncludes url "://"

/-- API_ENDPOINTS.DASHBOARD (src/src/constants.ts). -/
def DASHBOARD : String := "https://streamlabs.com/dashboard"

/-- API_ENDPOINTS.SLOBS_DASHBOARD (src/src/constants.ts). -/
def SLOBS_DASHBOARD : String := "https://streamlabs.com/slobs/dashboard"

/-- ERROR_MESSAGES.WINDOW_CLOSED (src/src/constants.ts). -/
def WINDOW_CLOSED : String := "Window closed by user"

/-- ERROR_MESSAGES.NO_CODE_VERIFIER (src/src/constants.ts). -/
def NO_CODE_VERIFIER : String := "No CodeVerifier found"

/-- ERROR_MESSAGES.FETCH_FAILED (src/src/constants.ts). -/
def FETCH_FAILED : String := "Fetch failed"

/-- The rejection message handleFetchResult builds on a failed exchange
result, p being JSON.stringify(result). -/
def fetchFailedMsg (p : String) : String :=
  FETCH_FAILED ++ ": " ++ p

/-- The authorization code StreamlabsAuth.checkSuccess extracts: none
when the URL constructor throws or the parameter is absent. -/
def extractCode (url : String) : Option String :=
  if urlParseOk url then searchParamGet url "code" else none

/-- Truthiness of the extracted code (an empty string is falsy). -/
def codeTruthy (url : String) : Bool :=
  match extractCode url with
  | some c => c ≠ ""
  | none => false

/-- The isSuccess expression of checkSuccess: a success marker together
with a truthy code. -/
def isSuccessUrl (url : String) : Bool :=
  (urlIncludes url "success=true" && codeTruthy url) ||
  (urlIncludes url DASHBOARD && codeTruthy url) ||
  (urlIncludes url SLOBS_DASHBOARD && codeTruthy url)

/-- Does checkSuccess start the token fetch, given the current
tokenFetchStarted flag?  (The body runs only when the URL parses; an
invalid URL returns early.) -/
def checkSuccessFires (tokenFetchStarted : Bool) (url : String) : Bool :=
  urlParseOk url && isSuccessUrl url && !tokenFetchStarted && codeTruthy url

/-- Resolution of findToken: the value passed to resolveToken or the
message of the Error passed to rejectToken. -/
inductive Outcome where
  | resolved (data : String)
  | rejected (msg : String)
deriving DecidableEq, Repr

/-- Instance state of one StreamlabsAuth attempt. -/
structure AuthState where
  tokenFetchStarted : Bool
  windowOpen : Bool
  settled : Option Outcome
  exchangeCount : Nat
deriving DecidableEq, Repr

/-- State when findToken has installed resolve/reject and created the
window. -/
def initAuthState : AuthState :=
  { tokenFetchStarted := false, windowOpen := true,
    settled := none, exchangeCount := 0 }

/-- Settling a promise that may already be settled: the first settlement
wins, later ones are no-ops. -/
def settle (s : AuthState) (o : Outcome) : AuthState :=
  match s.settled with
  | some _ => s
  | none => { s with settled := some o }

/-- Events the source subscribes to: the two navigation callbacks, the
window's closed event, a fetch result reaching handleFetchResult, and
passage of time with no external event. -/
inductive AuthEvent where
  | nav (url : String)
  | navInPage (url : String)
  | closed
  | fetchResult (ok : Bool) (dataOk : Bool) (payload : String)
  | tick
deriving Repr

/-- checkSuccess as a state transformer: on the success condition it
sets tokenFetchStarted and launches the exchange (counted). -/
def stepCheckSuccess (s : AuthState) (url : String) : AuthState :=
  if checkSuccessFires s.tokenFetchStarted url then
    { s with tokenFetchStarted := true, exchangeCount := s.exchangeCount + 1 }
  else s

/-- The window's closed handler: the window is gone; if the token fetch
has not started, reject with WINDOW_CLOSED. -/
def stepClosed (s : AuthState) : AuthState :=
  if s.tokenFetchStarted then { s with windowOpen := false }
  else settle { s with windowOpen := false } (.rejected WINDOW_CLOSED)

/-- handleFetchResult followed by cleanup: settle from the exchange
result, then close the window (which fires the closed handler). -/
def stepFetchResult (s : AuthState) (ok dataOk : Bool) (payload : String) :
    AuthState :=
  if ok && dataOk then stepClosed (settle s (.resolved payload))
  else stepClosed (settle s (.rejected (fetchFailedMsg payload)))

/-- One event of the machine.  did-navigate runs checkLoginStatus (which
only schedules a navigation and touches no instance state) and then
checkSuccess; did-navigate-in-page runs checkSuccess alone; no timer is
registered besides checkLoginStatus's debounce, so a tick changes
nothing. -/
def step (s : AuthState) : AuthEvent → AuthState
  | .nav url => stepCheckSuccess s url
  | .navInPage url => stepCheckSuccess s url
  | .closed => stepClosed s
  | .fetchResult ok dataOk payload => stepFetchResult s ok dataOk payload
  | .tick => s

/-- Run the machine over a list of events. -/
def runEvents (s : AuthState) : List AuthEvent → AuthState
  | [] => s
  | e :: es => runEvents (step s e) es

/-- Does an event carry a URL satisfying the checkSuccess success
condition (as evaluated with the single-fire guard clear)? -/
def qualifies : AuthEvent → Bool
  | .nav url => checkSuccessFires false url
  | .navInPage url => checkSuccessFires false url
  | _ => false

/-! ## PKCE pair generator

Model of AuthManager.generateCodeVerifier / generateCodeChallenge
(src/src/auth/AuthManager.ts).  The secure random source is an explicit
list of bytes; crypto.randomBytes(64).toString('hex') is hex encoding,
and crypto.createHash('sha256').update(verifier) hashes the UTF-8 bytes
of the verifier string.  SHA-256 and base64 are executable models of the
node:crypto primitives. -/

/-- Bitwise and mod 2^32. -/
def M32 : Nat := 4294967296

def add32 (a b : Nat) : Nat := (a + b) % M32

def rotr32 (n x : Nat) : Nat :=
  ((x >>> n) ||| (x <<< (32 - n))) % M32

def not32 (x : Nat) : Nat := Nat.xor x 4294967295

def xor3 (a b c : Nat) : Nat := Nat.xor (Nat.xor a b) c

def sigma0 (x : Nat) : Nat := xor3 (rotr32 7 x) (rotr32 18 x) (x >>> 3)

def sigma1 (x : Nat) : Nat := xor3 (rotr32 17 x) (rotr32 19 x) (x >>> 10)

def bigS0 (x : Nat) : Nat := xor3 (rotr32 2 x) (rotr32 13 x) (rotr32 22 x)

def bigS1 (x : Nat) : Nat := xor3 (rotr32 6 x) (rotr32 11 x) (rotr32 25 x)

def chFn (x y z : Nat) : Nat := Nat.xor (Nat.land x y) (Nat.land (not32 x) z)

def majFn (x y z : Nat) : Nat :=
  xor3 (Nat.land x y) (Nat.land x z) (Nat.land y z)

/-- The 64 SHA-256 round constants, as decimal values of the 32-bit
words. -/
def sha256K : List Nat :=
  [1116352408, 1899447441, 3049323471, 3921009573,
   961987163, 1508970993, 2453635748, 2870763221,
   3624381080, 310598401, 607225278, 1426881987,
   1925078388, 2162078206, 2614888103, 3248222580,
   3835390401, 4022224774, 264347078, 604807628,
   770255983, 1249150122, 1555081692, 1996064986,
   2554220882, 2821834349, 2952996808, 3210313671,
   3336571891, 3584528711, 113926993, 338241895,
   666307205, 773529912, 1294757372, 1396182291,
   1695183700, 1986661051, 2177026350, 2456956037,
   2730485921, 2820302411, 3259730800, 3345764771,
   3516065817, 3600352804, 4094571909, 275423344,
   430227734, 506948616, 659060556, 883997877,
   958139571, 1322822218, 1537002063, 1747873779,
   1955562222, 2024104815, 2227730452, 2361852424,
   2428436474, 2756734187, 3204031479, 3329325298]

/-- The SHA-256 initial hash values, as decimal values of the 32-bit
words. -/
def sha256H0 : List Nat :=
  [1779033703, 3144134277, 1013904242, 2773480762,
   1359893119, 2600822924, 528734635, 1541459225]

/-- Big-endian bytes of a value, k bytes wide. -/
def natToBytesBE : Nat → Nat → List Nat
  | 0, _ => []
  | k + 1, n => natToBytesBE k (n / 256) ++ [n % 256]

/-- SHA-256 padding for a message of len bytes. -/
def sha256Pad (len : Nat) : List Nat :=
  0x80 :: List.replicate ((119 - len % 64) % 64) 0 ++ natToBytesBE 8 (len * 8)

/-- Split bytes into 64-byte blocks. -/
def chunks64 : Nat → List Nat → List (List Nat)
  | 0, _ => []
  | _ + 1, [] => []
  | fuel + 1, l => l.take 64 :: chunks64 fuel (l.drop 64)

/-- 32-bit big-endian words of a block. -/
def wordsOf : List Nat → List Nat
  | a :: b :: c :: d :: rest =>
    (a * 16777216 + b * 65536 + c * 256 + d) :: wordsOf rest
  | _ => []

/-- Extend the 16 message words by n schedule words. -/
def extendSchedule : Nat → List Nat → List Nat
  | 0, w => w
  | n + 1, w =>
    let i := w.length
    let nw := add32 (add32 (sigma1 (w.getD (i - 2) 0)) (w.getD (i - 7) 0))
                    (add32 (sigma0 (w.getD (i - 15) 0)) (w.getD (i - 16) 0))
    extendSchedule n (w ++ [nw])

/-- One compression round on the working variables [a,b,c,d,e,f,g,h]. -/
def compressRound (st : List Nat) (kw : Nat × Nat) : List Nat :=
  match st with
  | [a, b, c, d, e, f, g, h] =>
    let t1 := add32 (add32 (add32 h (bigS1 e)) (add32 (chFn e f g) kw.1)) kw.2
    let t2 := add32 (bigS0 a) (majFn a b c)
    [add32 t1 t2, a, b, c, add32 d t1, e, f, g]
  | other => other

/-- Compress one 64-byte block into the hash state. -/
def compressBlock (hs : List Nat) (block : List Nat) : List Nat :=
  let w := extendSchedule 48 (wordsOf block)
  let v := (sha256K.zip w).foldl compressRound hs
  List.zipWith add32 hs v

/-- SHA-256 digest (32 bytes) of a byte list. -/
def sha256 (msg : List Nat) : List Nat :=
  let padded := msg ++ sha256Pad msg.length
  let hs := (chunks64 (padded.length + 1) padded).foldl compressBlock sha256H0
  (hs.map (natToBytesBE 4)).flatten

/-- UTF-8 bytes of a string (Buffer.from(s) / hash.update(s)). -/
def utf8Bytes (s : String) : List Nat :=
  (s.data.map (fun c =>
    let n := c.toNat
    if n < 0x80 then [n]
    else if n < 0x800 then
      [0xc0 + n / 64, 0x80 + n % 64]
    else if n < 0x10000 then
      [0xe0 + n / 4096, 0x80 + (n / 64) % 64, 0x80 + n % 64]
    else
      [0xf0 + n / 262144, 0x80 + (n / 4096) % 64,
       0x80 + (n / 64) % 64, 0x80 + n % 64])).flatten

/-- Lowercase hex digit. -/
def hexDigitCh (n : Nat) : Char :=
  if n = 0 then '0' else if n = 1 then '1' else if n = 2 then '2'
  else if n = 3 then '3' else if n = 4 then '4' else if n = 5 then '5'
  else if n = 6 then '6' else if n = 7 then '7' else if n = 8 then '8'
  else if n = 9 then '9' else if n = 10 then 'a' else if n = 11 then 'b'
  else if n = 12 then 'c' else if n = 13 then 'd' else if n = 14 then 'e'
  else 'f'

/-- Buffer.toString('hex'): two lowercase hex digits per byte. -/
def bytesToHex (bs : List Nat) : String :=
  String.mk ((bs.map (fun b => [hexDigitCh (b / 16 % 16), hexDigitCh (b % 16)])).flatten)

/-- The base64 alphabet. -/
def b64Ch (n : Nat) : Char :=
  "ABCDEFGHIJKLMNOPQRSTUVWXYZabcdefghijklmnopqrstuvwxyz0123456789+/".data.getD n 'A'

/-- Buffer.toString('base64'): standard base64 with '=' padding. -/
def base64encode : List Nat → List Char
  | a :: b :: c :: rest =>
    b64Ch (a / 4) :: b64Ch ((a % 4) * 16 + b / 16) ::
    b64Ch ((b % 16) * 4 + c / 64) :: b64Ch (c % 64) :: base64encode rest
  | [a, b] =>
    [b64Ch (a / 4), b64Ch ((a % 4) * 16 + b / 16), b64Ch ((b % 16) * 4), '=']
  | [a] => [b64Ch (a / 4), b64Ch ((a % 4) * 16), '=', '=']
  | [] => []

/-- The chained replacements of generateCodeChallenge: '+' → '-',
'/' → '_'. -/
def b64UrlChar (c : Char) : Char :=
  if c = '+' then '-' else if c = '/' then '_' else c

/-- Removal of the trailing '=' padding run (the .replace of the source). -/
def stripTrailingEq (l : List Char) : List Char :=
  (l.reverse.dropWhile (fun c => c = '=')).reverse

/-- Unpadded base64url of a byte list (the digest post-processing of
generateCodeChallenge). -/
def base64UrlNoPad (bs : List Nat) : String :=
  String.mk (stripTrailingEq ((base64encode bs).map b64UrlChar))

/-- AuthManager.generateCodeVerifier over the drawn random bytes:
crypto.randomBytes(64).toString('hex'). -/
def generateCodeVerifier (randomBytes : List Nat) : String :=
  bytesToHex randomBytes

/-- AuthManager.generateCodeChallenge: SHA-256 of the UTF-8 bytes of the
verifier string, base64, '+'→'-', '/'→'_', trailing '=' stripped. -/
def generateCodeChallenge (verifier : String) : String :=
  base64UrlNoPad (sha256 (utf8Bytes verifier))

/-- Modelled from the spec: the challenge the claim prescribes, the
unpadded base64url of the SHA-256 digest of the verifier's raw random
bytes (the bytes drawn from the random source, before hex encoding). -/
def specChallengeOfRawBytes (randomBytes : List Nat) : String :=
  base64UrlNoPad (sha256 randomBytes)

/-! ## Token cache writer

Model of TokenStorage.save and FileUtils.writeJson
(src/src/utils/fileUtils.ts).  The file system is abstracted as the JSON
value the cache file currently holds (none when absent); writeJson
serializes its argument and overwrites the file. -/

/-- FileUtils.writeJson: fs.writeFileSync of JSON.stringify(data) — the
previous content does not enter. -/
def writeJson (_prevFile : Option Json) (data : Json) : Option Json :=
  some data

/-- TokenStorage.save: writeJson of the record. -/
def tokenStorageSave (prevFile : Option Json) (data : JsObj) : Option Json :=
  writeJson prevFile (Json.obj data)

/-- Read a key from the cache file's object. -/
def fileGet (file : Option Json) (k : String) : Option Json :=
  match file with
  | some (Json.obj l) => objGet l k
  | _ => none

/-! ## Derived predicates and concrete fixtures -/

/-- Property read on a JSON value (objects only). -/
def jsonGet : Json → String → Option Json
  | Json.obj l, k => objGet l k
  | _, _ => none

/-- Is a parsed JSON value an object carrying a recognized truthy `type`
and a `payload` key — the shape the router validates after
enrichment. -/
def conformantValue : Json → Bool
  | Json.obj f =>
    (match objGet f "type" with
     | some (Json.str s) => s ≠ "" && (toMsgType s).isSome
     | _ => false) && hasField f "payload"
  | _ => false

/-- A fixed ambient context for concrete runs. -/
def ctxW : RouterCtx := { now := 1700000000000, genId := "1700000000000-abc1234" }

/-- A handler that returns normally. -/
def okHandler : Handler := fun _ _ => Except.ok ()

/-- A handler that throws. -/
def throwingHandler : Handler := fun _ _ => Except.error "boom"

/-- An empty handler table. -/
def noHandlers : HandlerMap := fun _ => none

/-- Only RAW_STRING registered, with a well-behaved handler. -/
def rawOkMap : HandlerMap := fun t =>
  match t with
  | .RAW_STRING => some okHandler
  | _ => none

/-- Only RAW_STRING registered, with a throwing handler. -/
def rawThrowMap : HandlerMap := fun t =>
  match t with
  | .RAW_STRING => some throwingHandler
  | _ => none

/-- A well-formed LOG_EVENT message as wire text. -/
def logEventRaw : String :=
  "\x7b\"type\":\"LOG_EVENT\",\"payload\":\x7b\"level\":\"info\",\"message\":\"m\"\x7d\x7d"

/-- The parsed value of logEventRaw. -/
def logEventVal : Json :=
  Json.obj [("type", Json.str "LOG_EVENT"),
            ("payload", Json.obj [("level", Json.str "info"),
                                  ("message", Json.str "m")])]

/-- The identity provider's login entry page. -/
def loginPageUrl : String := "https://www.tiktok.com/login"

/-- A logged-in home URL. -/
def authenticatedHomeUrl : String := "https://www.tiktok.com/foryou"

/-- A consent redirect carrying the success flag and an authorization
code. -/
def consentUrlWithCode : String :=
  "https://streamlabs.com/dashboard?success=true&code=abc"

/-- A success-marked URL with no code parameter. -/
def successUrlNoCode : String :=
  "https://streamlabs.com/dashboard?success=true"

/-- The spec's simulated navigation sequence, delivered twice: once as
full loads, once as in-page events. -/
def specScenario : List AuthEvent :=
  [AuthEvent.nav loginPageUrl, AuthEvent.nav authenticatedHomeUrl,
   AuthEvent.nav consentUrlWithCode,
   AuthEvent.navInPage loginPageUrl, AuthEvent.navInPage authenticatedHomeUrl,
   AuthEvent.navInPage consentUrlWithCode]

/-- A token-cache file already on disk, holding an ancillary key. -/
def c7PrevFile : Json :=
  Json.obj [("extra", Json.str "E"), ("oauth_token", Json.str "old")]

/-- The record being saved, which does not mention the ancillary key. -/
def c7Record : JsObj := [("oauth_token", Json.str "T1")]

/-- A fixed draw of the 64 random verifier bytes. -/
def c1RawBytes : List Nat := List.replicate 64 0

/-! ## Supporting lemmas -/

theorem objGet_setField_self (l : JsObj) (k : String) (v : Json) :
    objGet (setField l k v) k = some v := by
  induction l with
  | nil => simp [setField, objGet]
  | cons hd tl ih =>
    by_cases hk : hd.1 = k
    · simp [setField, hk, objGet]
    · simp [setField, hk, objGet, ih]

theorem objGet_setField_ne (l : JsObj) (k k' : String) (v : Json)
    (h : k' ≠ k) : objGet (setField l k v) k' = objGet l k' := by
  induction l with
  | nil =>
    simp only [setField, objGet]
    rw [if_neg (fun hh : k = k' => h hh.symm)]
  | cons hd tl ih =>
    cases hd with
    | mk k0 v0 =>
      by_cases hk : k0 = k
      · subst hk
        simp only [setField, if_pos rfl, objGet]
        rw [if_neg (fun hh : k0 = k' => h hh.symm),
            if_neg (fun hh : k0 = k' => h hh.symm)]
      · simp only [setField, if_neg hk, objGet]
        by_cases hkk : k0 = k'
        · rw [if_pos hkk, if_pos hkk]
        · rw [if_neg hkk, if_neg hkk]
          exact ih

theorem isSome_of_truthy {o : Option Json} (h : truthy o = true) :
    o.isSome = true := by
  cases o with
  | none => simp [truthy] at h
  | some v => rfl

theorem digitCh_le (n : Nat) : (digitCh n).toNat ≤ 57 := by
  unfold digitCh
  repeat' split
  all_goals decide

theorem natDigits_le (fuel n : Nat) :
    ∀ c ∈ natDigits fuel n, c.toNat ≤ 57 := by
  induction fuel generalizing n with
  | zero => intro c hc; simp [natDigits] at hc
  | succ f ih =>
    intro c hc
    unfold natDigits at hc
    split at hc
    · simp at hc
      exact hc ▸ digitCh_le n
    · rcases List.mem_append.mp hc with h1 | h1
      · exact ih _ c h1
      · simp at h1
        exact h1 ▸ digitCh_le (n % 10)

theorem natKey_ne (i : Nat) (k : String) (c : Char) (hc : c ∈ k.data)
    (hgt : 57 < c.toNat) : natKey i ≠ k := by
  intro h
  have hd : k.data = natDigits (i + 1) i := by
    rw [← h]; rfl
  rw [hd] at hc
  exact absurd hgt (Nat.not_lt.mpr (natDigits_le _ _ c hc))

theorem objGet_enumFields (i : Nat) (xs : List Json) (k : String)
    (c : Char) (hc : c ∈ k.data) (hgt : 57 < c.toNat) :
    objGet (enumFields i xs) k = none := by
  induction xs generalizing i with
  | nil => rfl
  | cons x tl ih =>
    simp only [enumFields, objGet, natKey_ne i k c hc hgt, if_false]
    exact ih (i + 1)

theorem objGet_strFields (i : Nat) (cs : List Char) (k : String)
    (c : Char) (hc : c ∈ k.data) (hgt : 57 < c.toNat) :
    objGet (strFields i cs) k = none := by
  induction cs generalizing i with
  | nil => rfl
  | cons x tl ih =>
    simp only [strFields, objGet, natKey_ne i k c hc hgt, if_false]
    exact ih (i + 1)

theorem objGet_jsSpread_of_not_obj (v : Json) (hv : ∀ f, v ≠ Json.obj f)
    (k : String) (c : Char) (hc : c ∈ k.data) (hgt : 57 < c.toNat) :
    objGet (jsSpread v) k = none := by
  cases v with
  | obj f => exact absurd rfl (hv f)
  | arr xs => exact objGet_enumFields 0 xs k c hc hgt
  | str s => exact objGet_strFields 0 s.data k c hc hgt
  | null => rfl
  | bool b => rfl
  | num s => rfl

theorem objGet_enrichTimestamp_ne (ctx : RouterCtx) (e : JsObj)
    (k : String) (h1 : k ≠ "timestamp") :
    objGet (enrichTimestamp ctx e) k = objGet e k := by
  unfold enrichTimestamp
  split
  · rfl
  · exact objGet_setField_ne _ _ _ _ h1

theorem objGet_enrichId_ne (ctx : RouterCtx) (e : JsObj)
    (k : String) (h2 : k ≠ "id") :
    objGet (enrichId ctx e) k = objGet e k := by
  unfold enrichId
  split
  · rfl
  · exact objGet_setField_ne _ _ _ _ h2

theorem objGet_enrichMessage_ne (ctx : RouterCtx) (v : Json) (k : String)
    (h1 : k ≠ "timestamp") (h2 : k ≠ "id") :
    objGet (enrichMessage ctx v) k = objGet (jsSpread v) k := by
  unfold enrichMessage
  rw [objGet_enrichId_ne ctx _ k h2, objGet_enrichTimestamp_ne ctx _ k h1]

theorem hasField_enrichTimestamp (ctx : RouterCtx) (e : JsObj) :
    hasField (enrichTimestamp ctx e) "timestamp" = true := by
  unfold enrichTimestamp hasField
  split
  · next h => exact isSome_of_truthy h
  · rw [objGet_setField_self]; rfl

theorem hasField_enrichMessage_timestamp (ctx : RouterCtx) (v : Json) :
    hasField (enrichMessage ctx v) "timestamp" = true := by
  unfold enrichMessage hasField
  rw [objGet_enrichId_ne ctx _ _ (by decide : ("timestamp" : String) ≠ "id")]
  exact hasField_enrichTimestamp ctx _

theorem hasField_enrichMessage_id (ctx : RouterCtx) (v : Json) :
    hasField (enrichMessage ctx v) "id" = true := by
  unfold enrichMessage enrichId hasField
  split
  · next h => exact isSome_of_truthy h
  · rw [objGet_setField_self]; rfl

theorem processMessage_isOk (handlers : HandlerMap) (m : JsObj) :
    (processMessage handlers m).isOk = true := by
  unfold processMessage
  repeat' split
  all_goals rfl

theorem handlerCalls_processMessage {handlers : HandlerMap} {m m' : JsObj}
    {t : MsgType} {p : Json}
    (h : Event.handlerCalled t p m' ∈ handlerCalls (processMessage handlers m)) :
    m' = m ∧ isValidIpcMessage m = true := by
  unfold processMessage at h
  by_cases hv : isValidIpcMessage m
  · rw [if_pos hv] at h
    refine ⟨?_, hv⟩
    split at h
    · split at h
      · simp [handlerCalls] at h
      · split at h
        · simp [handlerCalls] at h
          exact h.2.2
        · simp [handlerCalls] at h
          exact h.2.2
    · simp [handlerCalls] at h
  · rw [if_neg hv] at h
    simp [handlerCalls] at h

theorem toMsgType_isSome_cases {s : String} (h : (toMsgType s).isSome = true) :
    s = "WINDOW_CONTEXT" ∨ s = "USER_ACTION" ∨ s = "LOG_EVENT" ∨
      s = "RAW_STRING" := by
  unfold toMsgType at h
  by_cases h1 : s = "WINDOW_CONTEXT"
  · exact Or.inl h1
  rw [if_neg h1] at h
  by_cases h2 : s = "USER_ACTION"
  · exact Or.inr (Or.inl h2)
  rw [if_neg h2] at h
  by_cases h3 : s = "LOG_EVENT"
  · exact Or.inr (Or.inr (Or.inl h3))
  rw [if_neg h3] at h
  by_cases h4 : s = "RAW_STRING"
  · exact Or.inr (Or.inr (Or.inr h4))
  rw [if_neg h4] at h
  simp at h

theorem isValid_enrichMessage (ctx : RouterCtx) (v : Json) :
    isValidIpcMessage (enrichMessage ctx v) = conformantValue v := by
  cases v with
  | obj f =>
    have hty : objGet (enrichMessage ctx (Json.obj f)) "type" = objGet f "type" := by
      rw [objGet_enrichMessage_ne ctx _ "type" (by decide) (by decide)]
      rfl
    have hpay : hasField (enrichMessage ctx (Json.obj f)) "payload" =
        hasField f "payload" := by
      unfold hasField
      rw [objGet_enrichMessage_ne ctx _ "payload" (by decide) (by decide)]
      rfl
    simp only [isValidIpcMessage, conformantValue]
    rw [hty, hpay]
    rcases objGet f "type" with _ | w
    · rfl
    · cases w <;> simp [Bool.and_assoc]
  | null =>
    have hty : objGet (enrichMessage ctx Json.null) "type" = none := by
      rw [objGet_enrichMessage_ne ctx _ "type" (by decide) (by decide)]
      exact objGet_jsSpread_of_not_obj _ (fun f h => by cases h) _ 't'
        (by decide) (by decide)
    unfold isValidIpcMessage conformantValue
    rw [hty]
  | bool b =>
    have hty : objGet (enrichMessage ctx (Json.bool b)) "type" = none := by
      rw [objGet_enrichMessage_ne ctx _ "type" (by decide) (by decide)]
      exact objGet_jsSpread_of_not_obj _ (fun f h => by cases h) _ 't'
        (by decide) (by decide)
    unfold isValidIpcMessage conformantValue
    rw [hty]
  | num s =>
    have hty : objGet (enrichMessage ctx (Json.num s)) "type" = none := by
      rw [objGet_enrichMessage_ne ctx _ "type" (by decide) (by decide)]
      exact objGet_jsSpread_of_not_obj _ (fun f h => by cases h) _ 't'
        (by decide) (by decide)
    unfold isValidIpcMessage conformantValue
    rw [hty]
  | str s =>
    have hty : objGet (enrichMessage ctx (Json.str s)) "type" = none := by
      rw [objGet_enrichMessage_ne ctx _ "type" (by decide) (by decide)]
      exact objGet_jsSpread_of_not_obj _ (fun f h => by cases h) _ 't'
        (by decide) (by decide)
    unfold isValidIpcMessage conformantValue
    rw [hty]
  | arr xs =>
    have hty : objGet (enrichMessage ctx (Json.arr xs)) "type" = none := by
      rw [objGet_enrichMessage_ne ctx _ "type" (by decide) (by decide)]
      exact objGet_jsSpread_of_not_obj _ (fun f h => by cases h) _ 't'
        (by decide) (by decide)
    unfold isValidIpcMessage conformantValue
    rw [hty]

theorem payloadOf_rawStringMessage (ctx : RouterCtx) (s : String) :
    payloadOf (rawStringMessage ctx s) = rawStringPayload ctx s := rfl

theorem isValid_rawStringMessage (ctx : RouterCtx) (s : String) :
    isValidIpcMessage (rawStringMessage ctx s) = true := rfl

theorem typeOfMsg_rawStringMessage (ctx : RouterCtx) (s : String) :
    typeOfMsg (rawStringMessage ctx s) = some MsgType.RAW_STRING := rfl

/-! ## Claims about the message router -/

/-- C4: an input string that fails JSON parsing is never dropped: with a
RAW_STRING handler registered, dispatch delivers exactly one RAW_STRING
message to it, whose payload.data is the original text unchanged and
whose payload carries a receipt timestamp. -/
theorem claim_C4_rawString_delivery (ctx : RouterCtx)
    (handlers : HandlerMap) (s : String) (h : Handler)
    (hp : jsonParse s = none)
    (hreg : handlers MsgType.RAW_STRING = some h) :
    handlerCalls (handle ctx handlers s) =
      [Event.handlerCalled MsgType.RAW_STRING (rawStringPayload ctx s)
        (rawStringMessage ctx s)]
    ∧ jsonGet (rawStringPayload ctx s) "data" = some (Json.str s)
    ∧ (jsonGet (rawStringPayload ctx s) "receivedAt").isSome = true := by
  refine ⟨?_, rfl, rfl⟩
  simp only [handle, hp]
  unfold handleRawString processMessage
  rw [if_pos (isValid_rawStringMessage ctx s)]
  rcases hres : h (rawStringPayload ctx s) (rawStringMessage ctx s) with u | e <;>
    simp [typeOfMsg_rawStringMessage, hreg, payloadOf_rawStringMessage,
      hres, handlerCalls]

/-- C4 witness: dispatching the non-JSON input "not-json" to a router
with a RAW_STRING handler registered. -/
theorem claim_C4_witness :
    handlerCalls (handle ctxW rawOkMap "not-json") =
      [Event.handlerCalled MsgType.RAW_STRING
        (rawStringPayload ctxW "not-json") (rawStringMessage ctxW "not-json")]
    ∧ jsonGet (rawStringPayload ctxW "not-json") "data" =
        some (Json.str "not-json")
    ∧ (jsonGet (rawStringPayload ctxW "not-json") "receivedAt").isSome = true :=
  claim_C4_rawString_delivery ctxW rawOkMap "not-json" okHandler rfl rfl

/-- C5: dispatch never propagates an exception: its result is always ok;
a valid message with an unregistered type produces exactly one
onUnhandledMessage invocation; a throwing handler's exception is caught
and logged inside the router. -/
theorem claim_C5_router_never_throws (ctx : RouterCtx)
    (handlers : HandlerMap) (raw : String) :
    (handle ctx handlers raw).isOk = true
    ∧ (∀ v t, jsonParse raw = some v →
        isValidIpcMessage (enrichMessage ctx v) = true →
        typeOfMsg (enrichMessage ctx v) = some t →
        handlers t = none →
        handle ctx handlers raw =
          Except.ok [Event.unhandledMessage (enrichMessage ctx v)])
    ∧ (∀ h e, jsonParse raw = none →
        handlers MsgType.RAW_STRING = some h →
        h (rawStringPayload ctx raw) (rawStringMessage ctx raw) =
          Except.error e →
        handle ctx handlers raw =
          Except.ok [Event.handlerCalled MsgType.RAW_STRING
              (rawStringPayload ctx raw) (rawStringMessage ctx raw),
            Event.handlerErrorLogged MsgType.RAW_STRING e]) := by
  refine ⟨?_, ?_, ?_⟩
  · unfold handle
    rcases jsonParse raw with _ | v
    · exact processMessage_isOk _ _
    · exact processMessage_isOk _ _
  · intro v t hp hv ht hn
    simp only [handle, hp]
    unfold processMessage
    rw [if_pos hv]
    simp only [ht, hn]
  · intro h e hp hreg hthrow
    simp only [handle, hp]
    unfold handleRawString processMessage
    rw [if_pos (isValid_rawStringMessage ctx raw)]
    simp only [typeOfMsg_rawStringMessage, hreg,
      payloadOf_rawStringMessage, hthrow]

/-- C5 witness: a valid LOG_EVENT message against an empty handler table,
and a throwing RAW_STRING handler on a non-JSON input. -/
theorem claim_C5_witness :
    (handle ctxW noHandlers logEventRaw).isOk = true
    ∧ handle ctxW noHandlers logEventRaw =
        Except.ok [Event.unhandledMessage (enrichMessage ctxW logEventVal)]
    ∧ handle ctxW rawThrowMap "not-json" =
        Except.ok [Event.handlerCalled MsgType.RAW_STRING
            (rawStringPayload ctxW "not-json")
            (rawStringMessage ctxW "not-json"),
          Event.handlerErrorLogged MsgType.RAW_STRING "boom"] :=
  ⟨(claim_C5_router_never_throws ctxW noHandlers logEventRaw).1,
   (claim_C5_router_never_throws ctxW noHandlers logEventRaw).2.1
     logEventVal MsgType.LOG_EVENT rfl rfl rfl rfl,
   (claim_C5_router_never_throws ctxW rawThrowMap "not-json").2.2
     throwingHandler "boom" rfl rfl rfl⟩

/-- C8: every message a default-options router passes to a registered
handler has `id` and `timestamp` populated and a `type` that is one of
the four known variants. -/
theorem claim_C8_delivered_message_invariant (ctx : RouterCtx)
    (handlers : HandlerMap) (raw : String) (t : MsgType) (p : Json)
    (m : JsObj)
    (h : Event.handlerCalled t p m ∈ handlerCalls (handle ctx handlers raw)) :
    hasField m "id" = true ∧ hasField m "timestamp" = true ∧
    (∃ s, objGet m "type" = some (Json.str s) ∧
      (s = "WINDOW_CONTEXT" ∨ s = "USER_ACTION" ∨ s = "LOG_EVENT" ∨
        s = "RAW_STRING")) := by
  unfold handle at h
  rcases hp : jsonParse raw with _ | v
  all_goals rw [hp] at h
  · -- non-JSON input: the delivered message is rawStringMessage
    have hm := @handlerCalls_processMessage handlers
      (rawStringMessage ctx raw) m t p h
    rw [hm.1]
    exact ⟨rfl, rfl, "RAW_STRING", rfl, Or.inr (Or.inr (Or.inr rfl))⟩
  · -- parsed input: the delivered message is the enriched value
    have hm := @handlerCalls_processMessage handlers
      (enrichMessage ctx v) m t p h
    rw [hm.1]
    refine ⟨hasField_enrichMessage_id ctx v,
            hasField_enrichMessage_timestamp ctx v, ?_⟩
    have hv := hm.2
    unfold isValidIpcMessage at hv
    rcases hg : objGet (enrichMessage ctx v) "type" with _ | w
    · rw [hg] at hv; cases hv
    · rw [hg] at hv
      cases w with
      | str s =>
        refine ⟨s, rfl, ?_⟩
        have : (toMsgType s).isSome = true := by
          have h1 := Bool.and_elim_left hv
          exact Bool.and_elim_right h1
        exact toMsgType_isSome_cases this
      | null => cases hv
      | bool b => cases hv
      | num l => cases hv
      | arr xs => cases hv
      | obj f => cases hv

/-- C8 witness: the RAW_STRING delivery for the non-JSON input
"not-json" satisfies the invariant. -/
theorem claim_C8_witness :
    hasField (rawStringMessage ctxW "not-json") "id" = true ∧
    hasField (rawStringMessage ctxW "not-json") "timestamp" = true ∧
    (∃ s, objGet (rawStringMessage ctxW "not-json") "type" =
        some (Json.str s) ∧
      (s = "WINDOW_CONTEXT" ∨ s = "USER_ACTION" ∨ s = "LOG_EVENT" ∨
        s = "RAW_STRING")) := by
  have hm : handlerCalls (handle ctxW rawOkMap "not-json") =
      [Event.handlerCalled MsgType.RAW_STRING
        (rawStringPayload ctxW "not-json")
        (rawStringMessage ctxW "not-json")] := rfl
  exact claim_C8_delivered_message_invariant ctxW rawOkMap "not-json"
    MsgType.RAW_STRING (rawStringPayload ctxW "not-json")
    (rawStringMessage ctxW "not-json")
    (by rw [hm]; exact List.mem_singleton.mpr rfl)

/-- C10: an input string JSON.parse accepts whose value is not an object
with a recognized type and a payload key is reported through
onParseError: no handler is invoked and the input is not wrapped as
RAW_STRING. -/
theorem claim_C10_parse_ok_invalid_shape (ctx : RouterCtx)
    (handlers : HandlerMap) (s : String) (v : Json)
    (hp : jsonParse s = some v) (hnc : conformantValue v = false) :
    handle ctx handlers s =
      Except.ok [Event.parseErrorReported "Invalid IPC message structure"]
    ∧ handlerCalls (handle ctx handlers s) = []
    ∧ parseErrorCount (handle ctx handlers s) = 1
    ∧ unhandledCount (handle ctx handlers s) = 0 := by
  have hmain : handle ctx handlers s =
      Except.ok [Event.parseErrorReported "Invalid IPC message structure"] := by
    simp only [handle, hp]
    unfold processMessage
    rw [if_neg (by rw [isValid_enrichMessage, hnc]; exact Bool.false_ne_true)]
  refine ⟨hmain, ?_, ?_, ?_⟩ <;> rw [hmain] <;> rfl

/-- C10 witness: the input "5" parses as a JSON number, is reported via
onParseError, and never reaches a handler. -/
theorem claim_C10_witness :
    handle ctxW rawOkMap "5" =
      Except.ok [Event.parseErrorReported "Invalid IPC message structure"]
    ∧ handlerCalls (handle ctxW rawOkMap "5") = []
    ∧ parseErrorCount (handle ctxW rawOkMap "5") = 1
    ∧ unhandledCount (handle ctxW rawOkMap "5") = 0 :=
  claim_C10_parse_ok_invalid_shape ctxW rawOkMap "5" (Json.num "5") rfl rfl

/-! ## Claims about the navigation state machine -/

theorem checkSuccessFires_started (url : String) :
    checkSuccessFires true url = false := by
  unfold checkSuccessFires
  simp

theorem settle_fields (s : AuthState) (o : Outcome) :
    (settle s o).tokenFetchStarted = s.tokenFetchStarted ∧
    (settle s o).exchangeCount = s.exchangeCount := by
  unfold settle
  rcases s.settled with _ | x
  · exact ⟨rfl, rfl⟩
  · exact ⟨rfl, rfl⟩

theorem stepClosed_fields (s : AuthState) :
    (stepClosed s).tokenFetchStarted = s.tokenFetchStarted ∧
    (stepClosed s).exchangeCount = s.exchangeCount := by
  unfold stepClosed
  split
  · exact ⟨rfl, rfl⟩
  · exact ⟨(settle_fields _ _).1, (settle_fields _ _).2⟩

theorem stepFetchResult_fields (s : AuthState) (ok dataOk : Bool)
    (payload : String) :
    (stepFetchResult s ok dataOk payload).tokenFetchStarted =
      s.tokenFetchStarted ∧
    (stepFetchResult s ok dataOk payload).exchangeCount =
      s.exchangeCount := by
  unfold stepFetchResult
  split
  · exact ⟨((stepClosed_fields _).1).trans (settle_fields _ _).1,
           ((stepClosed_fields _).2).trans (settle_fields _ _).2⟩
  · exact ⟨((stepClosed_fields _).1).trans (settle_fields _ _).1,
           ((stepClosed_fields _).2).trans (settle_fields _ _).2⟩

theorem step_of_started (s : AuthState) (e : AuthEvent)
    (h : s.tokenFetchStarted = true) :
    (step s e).tokenFetchStarted = true ∧
    (step s e).exchangeCount = s.exchangeCount := by
  cases e with
  | nav url =>
    simp only [step, stepCheckSuccess, h, checkSuccessFires_started]
    exact ⟨h, rfl⟩
  | navInPage url =>
    simp only [step, stepCheckSuccess, h, checkSuccessFires_started]
    exact ⟨h, rfl⟩
  | closed =>
    simp only [step]
    exact ⟨(stepClosed_fields s).1.trans h, (stepClosed_fields s).2⟩
  | fetchResult ok dataOk payload =>
    simp only [step]
    exact ⟨(stepFetchResult_fields s ok dataOk payload).1.trans h,
           (stepFetchResult_fields s ok dataOk payload).2⟩
  | tick => exact ⟨h, rfl⟩

theorem step_not_qualifying (s : AuthState) (e : AuthEvent)
    (h : s.tokenFetchStarted = false) (hq : qualifies e = false) :
    (step s e).tokenFetchStarted = false ∧
    (step s e).exchangeCount = s.exchangeCount := by
  cases e with
  | nav url =>
    have hq' : checkSuccessFires false url = false := hq
    simp only [step, stepCheckSuccess, h, hq']
    exact ⟨h, rfl⟩
  | navInPage url =>
    have hq' : checkSuccessFires false url = false := hq
    simp only [step, stepCheckSuccess, h, hq']
    exact ⟨h, rfl⟩
  | closed =>
    simp only [step]
    exact ⟨(stepClosed_fields s).1.trans h, (stepClosed_fields s).2⟩
  | fetchResult ok dataOk payload =>
    simp only [step]
    exact ⟨(stepFetchResult_fields s ok dataOk payload).1.trans h,
           (stepFetchResult_fields s ok dataOk payload).2⟩
  | tick => exact ⟨h, rfl⟩

theorem step_qualifying (s : AuthState) (e : AuthEvent)
    (h : s.tokenFetchStarted = false) (hq : qualifies e = true) :
    (step s e).tokenFetchStarted = true ∧
    (step s e).exchangeCount = s.exchangeCount + 1 := by
  cases e with
  | nav url =>
    have hq' : checkSuccessFires false url = true := hq
    simp only [step, stepCheckSuccess, h, hq']
    exact ⟨rfl, rfl⟩
  | navInPage url =>
    have hq' : checkSuccessFires false url = true := hq
    simp only [step, stepCheckSuccess, h, hq']
    exact ⟨rfl, rfl⟩
  | closed => cases hq
  | fetchResult ok dataOk payload => cases hq
  | tick => cases hq

theorem runEvents_exchangeCount (es : List AuthEvent) (s : AuthState) :
    (runEvents s es).exchangeCount =
      s.exchangeCount +
        (if s.tokenFetchStarted then 0
         else if es.any qualifies then 1 else 0) := by
  induction es generalizing s with
  | nil =>
    simp only [runEvents]
    cases hst : s.tokenFetchStarted <;> simp
  | cons e tl ih =>
    simp only [runEvents]
    cases hst : s.tokenFetchStarted with
    | true =>
      have ha := step_of_started s e hst
      rw [ih (step s e), ha.1, ha.2]
      simp
    | false =>
      cases hq : qualifies e with
      | true =>
        have hc := step_qualifying s e hst hq
        rw [ih (step s e), hc.1, hc.2]
        simp [List.any_cons, hq]
      | false =>
        have hb := step_not_qualifying s e hst hq
        rw [ih (step s e), hb.1, hb.2]
        simp [List.any_cons, hq]

theorem checkSuccessFires_code {started : Bool} {url : String}
    (h : checkSuccessFires started url = true) : codeTruthy url = true := by
  unfold checkSuccessFires at h
  cases hc : codeTruthy url
  · rw [hc] at h; simp at h
  · rfl

theorem checkSuccessFires_success {started : Bool} {url : String}
    (h : checkSuccessFires started url = true) : isSuccessUrl url = true := by
  unfold checkSuccessFires at h
  cases hc : isSuccessUrl url
  · rw [hc] at h; simp at h
  · rfl

theorem isSuccessUrl_marker {url : String} (h : isSuccessUrl url = true) :
    (urlIncludes url "success=true" || urlIncludes url DASHBOARD ||
      urlIncludes url SLOBS_DASHBOARD) = true := by
  unfold isSuccessUrl at h
  cases h1 : urlIncludes url "success=true" <;>
    cases h2 : urlIncludes url DASHBOARD <;>
    cases h3 : urlIncludes url SLOBS_DASHBOARD <;>
    rw [h1, h2, h3] at h <;> simp_all

/-- C2: checkSuccess starts the token exchange only when the URL carries
a truthy `code` query parameter AND matches a success marker; a URL with
a success marker but no code parameter never triggers it. -/
theorem claim_C2_exchange_requires_code_and_marker (url : String)
    (started : Bool) :
    (checkSuccessFires started url = true →
      (∃ c, extractCode url = some c ∧ c ≠ "") ∧
      (urlIncludes url "success=true" || urlIncludes url DASHBOARD ||
        urlIncludes url SLOBS_DASHBOARD) = true)
    ∧ ((urlIncludes url "success=true" || urlIncludes url DASHBOARD ||
        urlIncludes url SLOBS_DASHBOARD) = true →
      extractCode url = none →
      checkSuccessFires started url = false) := by
  constructor
  · intro hf
    have hct := checkSuccessFires_code hf
    refine ⟨?_, isSuccessUrl_marker (checkSuccessFires_success hf)⟩
    unfold codeTruthy at hct
    rcases hx : extractCode url with _ | c
    · rw [hx] at hct; cases hct
    · rw [hx] at hct
      exact ⟨c, rfl, of_decide_eq_true hct⟩
  · intro _ hx
    unfold checkSuccessFires isSuccessUrl codeTruthy
    rw [hx]
    simp

/-- C2 witness: a dashboard URL with success flag and code fires and has
both code and marker; the same URL without a code never fires. -/
theorem claim_C2_witness :
    ((∃ c, extractCode consentUrlWithCode = some c ∧ c ≠ "") ∧
      (urlIncludes consentUrlWithCode "success=true" ||
        urlIncludes consentUrlWithCode DASHBOARD ||
        urlIncludes consentUrlWithCode SLOBS_DASHBOARD) = true)
    ∧ checkSuccessFires false successUrlNoCode = false :=
  ⟨(claim_C2_exchange_requires_code_and_marker consentUrlWithCode false).1
     (by rfl),
   (claim_C2_exchange_requires_code_and_marker successUrlNoCode false).2
     (by rfl) (by rfl)⟩

/-- C3: over any event sequence in which the success condition holds for
two or more events — including the same success URL delivered twice by
distinct event sources — the token-exchange action fires exactly once. -/
theorem claim_C3_single_fire (es : List AuthEvent)
    (h : 2 ≤ (es.filter qualifies).length) :
    (runEvents initAuthState es).exchangeCount = 1 := by
  have hany : es.any qualifies = true := by
    rcases hf : es.filter qualifies with _ | ⟨x, tl⟩
    · rw [hf] at h; simp at h
    · have hx : x ∈ es.filter qualifies := by
        rw [hf]; exact List.mem_cons_self x tl
      exact List.any_eq_true.mpr
        ⟨x, List.mem_of_mem_filter hx, List.of_mem_filter hx⟩
  rw [runEvents_exchangeCount]
  have h0 : initAuthState.tokenFetchStarted = false := rfl
  rw [h0, hany]
  rfl

/-- C3 witness: the spec's simulated navigation sequence delivered twice
(full-load then in-page) fires the exchange exactly once. -/
theorem claim_C3_witness :
    2 ≤ (specScenario.filter qualifies).length ∧
    (runEvents initAuthState specScenario).exchangeCount = 1 :=
  ⟨by decide, claim_C3_single_fire specScenario (by decide)⟩

/-- C6: closing the window while tokenFetchStarted is still false rejects
findToken with the distinct WINDOW_CLOSED error (not a fetch, network or
verifier error); closing at or after code capture leaves the settlement
untouched. -/
theorem claim_C6_closed_before_capture (s : AuthState) :
    (s.tokenFetchStarted = false → s.settled = none →
      ((step s AuthEvent.closed).settled =
          some (Outcome.rejected WINDOW_CLOSED) ∧
        (∀ p, WINDOW_CLOSED ≠ fetchFailedMsg p) ∧
        WINDOW_CLOSED ≠ NO_CODE_VERIFIER))
    ∧ (s.tokenFetchStarted = true →
        (step s AuthEvent.closed).settled = s.settled) := by
  constructor
  · intro h1 h2
    refine ⟨?_, ?_, by decide⟩
    · simp only [step, stepClosed, settle, h1]
      simp [h2]
    · intro p hcontr
      cases p with
      | mk d =>
        have hta : WINDOW_CLOSED.data.take 2 =
            ((fetchFailedMsg (String.mk d)).data.take 2) :=
          congrArg (fun q => q.data.take 2) hcontr
        have htb : (['W', 'i'] : List Char) = ['F', 'e'] := hta
        exact absurd htb (by decide)
  · intro h1
    simp only [step, stepClosed, h1]
    simp

/-- C6 witness: closing the fresh window rejects with WINDOW_CLOSED;
closing after the single-fire guard is set leaves the pending promise
alone. -/
theorem claim_C6_witness :
    (step initAuthState AuthEvent.closed).settled =
      some (Outcome.rejected WINDOW_CLOSED)
    ∧ (step { initAuthState with tokenFetchStarted := true }
        AuthEvent.closed).settled =
      ({ initAuthState with tokenFetchStarted := true } : AuthState).settled :=
  ⟨((claim_C6_closed_before_capture initAuthState).1 rfl rfl).1,
   (claim_C6_closed_before_capture
      { initAuthState with tokenFetchStarted := true }).2 rfl⟩

theorem runEvents_ticks (n : Nat) (s : AuthState) :
    runEvents s (List.replicate n AuthEvent.tick) = s := by
  induction n generalizing s with
  | zero => rfl
  | succ k ih =>
    rw [List.replicate_succ]
    exact ih s

/-- C9: the machine registers no overall deadline: however much time
passes with no external event, the attempt neither times out nor closes
the session — the promise stays pending, the window stays open, and no
exchange is forced.  (findToken, src/unnamed/part_012 lines 179-185,
installs no timer; the claimed multi-minute bound does not exist.) -/
theorem claim_C9_no_deadline (n : Nat) :
    (runEvents initAuthState (List.replicate n AuthEvent.tick)).settled = none
    ∧ (runEvents initAuthState
        (List.replicate n AuthEvent.tick)).windowOpen = true
    ∧ (runEvents initAuthState
        (List.replicate n AuthEvent.tick)).tokenFetchStarted = false := by
  rw [runEvents_ticks]
  exact ⟨rfl, rfl, rfl⟩

/-! ## Claims about the PKCE generator and the token cache -/

set_option maxRecDepth 10000 in
/-- C1: evaluation of the generator at an explicit draw of the 64 random
bytes.  The produced challenge is the unpadded base64url of the SHA-256
of the verifier's hex representation, and differs from the claimed
unpadded base64url of the SHA-256 of the raw random bytes; length 43 and
absence of '=' do hold. -/
theorem claim_C1_challenge_hashes_hex_not_raw :
    generateCodeVerifier c1RawBytes = String.mk (List.replicate 128 '0')
    ∧ generateCodeChallenge (generateCodeVerifier c1RawBytes) =
        "RXJXkcR7MmGMxXuIND4rzuw7CgG4O8l9FEosvBGiDD0"
    ∧ specChallengeOfRawBytes c1RawBytes =
        "9aX9QtFqIDAnmO9u0wmXm0MAPSMg2fDo6pgxqSdZ-0s"
    ∧ generateCodeChallenge (generateCodeVerifier c1RawBytes) ≠
        specChallengeOfRawBytes c1RawBytes
    ∧ (generateCodeChallenge (generateCodeVerifier c1RawBytes)).length = 43
    ∧ (generateCodeChallenge (generateCodeVerifier c1RawBytes)).data.all
        (fun c => c ≠ '=') = true := by
  refine ⟨rfl, rfl, rfl, by decide, rfl, rfl⟩

/-- C7 counterexample: a key present in the existing cache file and
absent from the record being saved is gone after the save — the claimed
merge does not happen. -/
theorem claim_C7_counterexample :
    fileGet (some c7PrevFile) "extra" = some (Json.str "E")
    ∧ objGet c7Record "extra" = none
    ∧ ¬ (fileGet (tokenStorageSave (some c7PrevFile) c7Record) "extra" =
          some (Json.str "E")) :=
  ⟨rfl, rfl, fun hcontr => Option.noConfusion hcontr⟩

/-- C7 amended: TokenStorage.save replaces the whole file with the saved
record; any key absent from the record is absent from the file after the
save, whatever the file held before. -/
theorem claim_C7_save_is_destructive_overwrite (prevFile : Option Json)
    (data : JsObj) (k : String) (h : objGet data k = none) :
    tokenStorageSave prevFile data = some (Json.obj data)
    ∧ fileGet (tokenStorageSave prevFile data) k = none := by
  refine ⟨rfl, ?_⟩
  show objGet data k = none
  exact h

/-- C7 witness: saving the token record over the existing file drops the
ancillary key. -/
theorem claim_C7_witness :
    tokenStorageSave (some c7PrevFile) c7Record = some (Json.obj c7Record)
    ∧ fileGet (tokenStorageSave (some c7PrevFile) c7Record) "extra" = none :=
  claim_C7_save_is_destructive_overwrite (some c7PrevFile) c7Record "extra" rfl
